import Mathlib

/-!
Shallow embedding of the `etheryal/imagebuilder` tool (`src/main.rs`).

The program is a build-and-run orchestrator for a bare-metal kernel: it
compiles a kernel, invokes a bootloader-builder child process to wrap the
binary into BIOS/UEFI disk images, relocates the images into an output
directory, and optionally boots an image in qemu under a timeout, remapping
the emulator exit code.

Modelling choices:
* a filesystem path (`PathBuf`) is its list of components;
* effects on the outside world (the filesystem, child processes) are
  captured by an explicit `World` of oracles: which files exist, what
  canonicalization returns, whether each rename and each child process
  succeeds.  Every function is translated from `src/main.rs` statement by
  statement, threading the file map through renames, and additionally
  records the externally visible actions (process spawns with their full
  argv, renames, directory creation, and the image-report log lines) as an
  event trace;
* Rust `panic!` sites (`expect`, `unwrap`) become an explicit `panicked`
  outcome, and `exit(..)` in `run_vm` becomes the returned `VmOutcome`,
  since `run_vm` never returns control to its caller.

The `error.rs` and `opts.rs` modules of the crate are not part of the
sources; the error variants and option fields below are reconstructed from
their uses in `src/main.rs` (and the input list of the specification),
which is where all the behaviour under verification lives.
-/

namespace ImageBuilder

/-- A filesystem path, modelled as its list of components. -/
abbrev Path := List String

/-- `Path::parent`: drop the last component; `none` on a degenerate
(empty) path, as for Rust `Path::new("").parent()`. -/
def Path.parent : Path → Option Path
  | [] => none
  | ps => some ps.dropLast

/-- `Path::file_name` (combined with the always-successful `to_str` of the
source, since our components are strings): the last component. -/
def Path.fileName (p : Path) : Option String := p.getLast?

/-- `Path::join` with a single relative component, the only form the source
uses. -/
def Path.join (p : Path) (c : String) : Path := p ++ [c]

/-- `Path::display`, used when a path is placed into an argv string. -/
def Path.display (p : Path) : String := String.intercalate ("/") p

/-- The error type of `create_kernel_diskimage` (variants reconstructed
from their uses in `src/main.rs`: the two locator failures convert into it
via `?`, and `RootNotFound`, `BuildFailed`, `Move`, `FindMoved` appear
literally). -/
inductive CreateDiskImageError
  | BootloaderNotFound
  | ManifestNotFound
  | RootNotFound
  | BuildFailed
  | Move
  | FindMoved
  deriving DecidableEq

/-- The top-level error type (variants reconstructed from their uses in
`src/main.rs`; `Io` stands for any `std::io::Error` converted via `?`, and
`DiskImage` for the conversion from `CreateDiskImageError`). -/
inductive BootImageError
  | OutNotExist
  | BuildFailed
  | KernelManifest
  | KernelRootNotFound
  | ManifestNotFound
  | Io
  | DiskImage (e : CreateDiskImageError)
  deriving DecidableEq

/-- A child process exit status: `code` is `none` when the process was
terminated without an exit code (e.g. by a signal). -/
structure ExitStatus where
  code : Option Int
  deriving DecidableEq

/-- The exit-code remapping applied by `run_vm` (src/main.rs lines
148-152): `status_code.map(|exit| if exit == 5 { 0 } else { exit }).unwrap_or(1)`. -/
def remapExitCode (status_code : Option Int) : Int :=
  (status_code.map fun e => if e = 5 then 0 else e).getD 1

/-- Externally visible actions of the emulator supervisor. -/
inductive VmEvent
  | spawnVm (program : String) (args : List String)
  | waitWithTimeout (secs : Nat)
  | kill
  | waitBlocking
  deriving DecidableEq

/-- Oracle describing the behaviour of the spawned emulator child and of
the wait/kill system calls: `waitTimeoutOutcome = none` means the child had
not exited when the timeout elapsed; `waitOutcome` is the status collected
by a blocking `wait` (the post-kill status in the bounded mode). -/
structure ChildBehavior where
  spawnOk : Bool
  waitTimeoutOk : Bool
  killOk : Bool
  waitOk : Bool
  waitTimeoutOutcome : Option ExitStatus
  waitOutcome : ExitStatus
  deriving DecidableEq

/-- How `run_vm` terminates the outer process: `exit(code)` or a panic.
It never returns control to its caller. -/
inductive VmOutcome
  | exited (code : Int)
  | panicked (msg : String)
  deriving DecidableEq

/-- Split a character list at every separator character, keeping empty
pieces, exactly as Rust `str::split` on a character class does.  The first
argument accumulates the current piece in reverse. -/
def splitCharsAux (p : Char → Bool) : List Char → List Char → List (List Char)
  | acc, [] => [acc.reverse]
  | acc, c :: cs =>
    if p c = true then acc.reverse :: splitCharsAux p [] cs
    else splitCharsAux p (c :: acc) cs

/-- Rust `str::split` on a character class: split a string at every
character satisfying the predicate, keeping empty pieces. -/
def splitOnPred (p : Char → Bool) (s : String) : List String :=
  (splitCharsAux p [] s.data).map String.mk

/-- `args.split(&[' ', '|'][..])` of the source: split the extra-argument
string on spaces and pipes. -/
def argSplit (args : String) : List String :=
  splitOnPred (fun c => c == ' ' || c == '|') args

/-- `opts.build_cmd.split(" ")` of the source: split the build command on
spaces. -/
def buildCmdSplit (build_cmd : String) : List String :=
  splitOnPred (fun c => c == ' ') build_cmd

/-- The qemu spawn recorded by `run_vm` (src/main.rs lines 123-128). -/
def vmSpawnEvent (diskimage : Path) (args : String) : VmEvent :=
  VmEvent.spawnVm ("qemu-system-x86_64")
    (["-drive", "format=raw,file=" ++ Path.display diskimage] ++ argSplit args)

/-- `run_vm` (src/main.rs lines 122-153): spawn qemu on the disk image,
wait (bounded by `timeout` seconds, else unbounded), on timeout kill and
reap the child, then terminate the outer process with the remapped code. -/
def run_vm (diskimage : Path) (args : String) (timeout : Option Nat)
    (child : ChildBehavior) : List VmEvent × VmOutcome :=
  let spawnEv := vmSpawnEvent diskimage args
  if child.spawnOk = false then
    ([spawnEv], VmOutcome.panicked ("Failed to start virtual machine"))
  else
    match timeout with
    | some t =>
      if child.waitTimeoutOk = false then
        ([spawnEv, VmEvent.waitWithTimeout t],
          VmOutcome.panicked ("Failed to wait for virtual machine"))
      else
        match child.waitTimeoutOutcome with
        | some status =>
          ([spawnEv, VmEvent.waitWithTimeout t],
            VmOutcome.exited (remapExitCode status.code))
        | none =>
          if child.killOk = false then
            ([spawnEv, VmEvent.waitWithTimeout t, VmEvent.kill],
              VmOutcome.panicked ("called Result::unwrap on an Err value"))
          else if child.waitOk = false then
            ([spawnEv, VmEvent.waitWithTimeout t, VmEvent.kill, VmEvent.waitBlocking],
              VmOutcome.panicked ("called Result::unwrap on an Err value"))
          else
            ([spawnEv, VmEvent.waitWithTimeout t, VmEvent.kill, VmEvent.waitBlocking],
              VmOutcome.exited (remapExitCode child.waitOutcome.code))
    | none =>
      if child.waitOk = false then
        ([spawnEv, VmEvent.waitBlocking],
          VmOutcome.panicked ("Failed to wait for virtual machine"))
      else
        ([spawnEv, VmEvent.waitBlocking],
          VmOutcome.exited (remapExitCode child.waitOutcome.code))

/-- The raw exit code of the child's final wait, as selected by `run_vm`:
the bounded wait's status if the child exited in the window, the blocking
(post-kill or unbounded) wait's status otherwise. -/
def rawExitCode (timeout : Option Nat) (child : ChildBehavior) : Option Int :=
  match timeout with
  | some _ =>
    match child.waitTimeoutOutcome with
    | some status => status.code
    | none => child.waitOutcome.code
  | none => child.waitOutcome.code

/-- Externally visible actions of the build pipeline. -/
inductive Ev
  | spawn (program : String) (cwd : Option Path) (args : List String)
  | rename (src dst : Path)
  | createDirAll (p : Path)
  | logBiosImage (p : Path)
  | logUefiImage (p : Path)
  deriving DecidableEq

/-- Outcome of a fallible pipeline routine: `Ok`, an error, or a Rust
panic. -/
inductive Out (ε α : Type)
  | ok (a : α)
  | err (e : ε)
  | panicked (msg : String)
  deriving DecidableEq

/-- A pipeline run: the trace of external actions, the file map after the
run, and the returned value. -/
structure Exec (ε α : Type) where
  trace : List Ev
  files : Path → Bool
  result : Out ε α

/-- The environment the pipeline runs in: which paths exist, what
`canonicalize` returns (`none` = the call fails), whether a given rename
succeeds, what the two manifest locators return (`none` = locator error),
the package name of the kernel manifest (`none` = no `[package]` section),
and whether each child process / `create_dir_all` call succeeds. -/
structure World where
  files : Path → Bool
  canonOf : Path → Option Path
  renameOk : Path → Path → Bool
  bootloaderManifest : Option Path
  kernelManifest : Option Path
  packageName : Option String
  compileOk : Bool
  builderOk : Bool
  createDirOk : Bool

/-- The bootloader-builder argv (src/main.rs lines 167-183): `builder
--quiet --kernel-manifest .. --kernel-binary .. --target-dir .. --out-dir
..`, plus `--firmware bios` exactly when the `uefi` parameter is false. -/
def builderArgs (kernel_manifest_path kernel_binary_path targetDirArg outDirArg : Path)
    (uefi : Bool) : List String :=
  ["builder", "--quiet",
    "--kernel-manifest", Path.display kernel_manifest_path,
    "--kernel-binary", Path.display kernel_binary_path,
    "--target-dir", Path.display targetDirArg,
    "--out-dir", Path.display outDirArg] ++
  (if uefi = false then ["--firmware", "bios"] else [])

/-- `format!("bootimage-bios-{}.img", kernel_binary_name)` joined onto the
kernel binary's directory (src/main.rs lines 200-203). -/
def biosCandidate (binDir : Path) (name : String) : Path :=
  Path.join binDir ("bootimage-bios-" ++ name ++ ".img")

/-- `format!("bootimage-uefi-{}.img", kernel_binary_name)` joined onto the
kernel binary's directory (src/main.rs lines 205-208). -/
def uefiCandidate (binDir : Path) (name : String) : Path :=
  Path.join binDir ("bootimage-uefi-" ++ name ++ ".img")

/-- The fixed destination `{out}/bios.img` (src/main.rs line 211). -/
def biosDest (out : Path) : Path := Path.join out ("bios.img")

/-- The fixed destination `{out}/uefi.img` (src/main.rs line 219). -/
def uefiDest (out : Path) : Path := Path.join out ("uefi.img")

/-- One materialization slot (src/main.rs lines 210-216 and, with the
other candidate, 218-224): if the candidate image exists, rename it to the
destination (`Move` error on failure) and canonicalize the destination
(`FindMoved` error on failure); a missing candidate yields `none`.  A
successful rename removes the file from its source path and places it at
the destination. -/
def moveSlot (image dst : Path) (files : Path → Bool) (w : World) :
    List Ev × (Path → Bool) × Except CreateDiskImageError (Option Path) :=
  if files image = true then
    if w.renameOk image dst = true then
      let files1 : Path → Bool :=
        fun p => if p = dst then true else if p = image then false else files p
      match w.canonOf dst with
      | some c => ([Ev.rename image dst], files1, Except.ok (some c))
      | none => ([Ev.rename image dst], files1, Except.error CreateDiskImageError.FindMoved)
    else ([Ev.rename image dst], files, Except.error CreateDiskImageError.Move)
  else ([], files, Except.ok none)

/-- `create_kernel_diskimage` (src/main.rs lines 155-227): locate the
bootloader and kernel manifests, spawn the bootloader builder from the
bootloader's root with `builderArgs` (note the `_bios` parameter is never
read), then materialize the two conventional candidate images into
`{out}/bios.img` / `{out}/uefi.img`. -/
def create_kernel_diskimage (kernel_binary_path : Path) (uefi : Bool) ( _bios : Bool)
    (out : Path) (w : World) : Exec CreateDiskImageError (Option Path × Option Path) :=
  match w.bootloaderManifest with
  | none => ⟨[], w.files, Out.err CreateDiskImageError.BootloaderNotFound⟩
  | some bootloader_manifest_path =>
    match w.kernelManifest with
    | none => ⟨[], w.files, Out.err CreateDiskImageError.ManifestNotFound⟩
    | some kernel_manifest_path =>
      match Path.parent bootloader_manifest_path with
      | none => ⟨[], w.files, Out.err CreateDiskImageError.RootNotFound⟩
      | some bootloaderRoot =>
        match Path.parent kernel_manifest_path with
        | none => ⟨[], w.files, Out.err CreateDiskImageError.RootNotFound⟩
        | some kernelRoot =>
          match Path.parent kernel_binary_path with
          | none => ⟨[], w.files, Out.panicked ("called Option::unwrap on a None value")⟩
          | some binDir =>
            let spawnEv := Ev.spawn ("cargo") (some bootloaderRoot)
              (builderArgs kernel_manifest_path kernel_binary_path
                (Path.join kernelRoot ("target")) binDir uefi)
            if w.builderOk = false then
              ⟨[spawnEv], w.files, Out.err CreateDiskImageError.BuildFailed⟩
            else
              match Path.fileName kernel_binary_path with
              | none => ⟨[spawnEv], w.files, Out.err CreateDiskImageError.RootNotFound⟩
              | some kernel_binary_name =>
                let sb := moveSlot (biosCandidate binDir kernel_binary_name)
                  (biosDest out) w.files w
                match sb.2.2 with
                | Except.error e => ⟨[spawnEv] ++ sb.1, sb.2.1, Out.err e⟩
                | Except.ok biosSlot =>
                  let su := moveSlot (uefiCandidate binDir kernel_binary_name)
                    (uefiDest out) sb.2.1 w
                  match su.2.2 with
                  | Except.error e => ⟨[spawnEv] ++ sb.1 ++ su.1, su.2.1, Out.err e⟩
                  | Except.ok uefiSlot =>
                    ⟨[spawnEv] ++ sb.1 ++ su.1, su.2.1, Out.ok (biosSlot, uefiSlot)⟩

/-- Options of the `build` subcommand (fields reconstructed from their
uses in `src/main.rs` and the specification's input list). -/
structure BuildOpts where
  out : Path
  create_out : Bool
  build_cmd : String
  target : String
  disable_bios : Bool
  disable_uefi : Bool
  deriving DecidableEq

/-- Options of the `run` subcommand (fields reconstructed from their uses
in `src/main.rs` and the specification's input list). -/
structure RunOpts where
  binary_path : Path
  out : Path
  run_args : String
  timeout : Option Nat
  deriving DecidableEq

/-- Output-directory validation of `build` (src/main.rs lines 62-68): if
the output directory does not exist, fail with `OutNotExist` unless
auto-creation was requested, in which case `create_dir_all` it. -/
def validateOut (opts : BuildOpts) (w : World) :
    List Ev × (Path → Bool) × Except BootImageError Unit :=
  if w.files opts.out = false then
    if opts.create_out = false then ([], w.files, Except.error BootImageError.OutNotExist)
    else if w.createDirOk = true then
      ([Ev.createDirAll opts.out],
        fun p => if p = opts.out then true else w.files p, Except.ok ())
    else ([Ev.createDirAll opts.out], w.files, Except.error BootImageError.Io)
  else ([], w.files, Except.ok ())

/-- `kernel_manifest.parent()?.join("target").join(target).join("release")`
(src/main.rs lines 83-90), the specification's `derive_target_dir`. -/
def derive_target_dir (descriptor_path : Path) (target_triple : String) :
    Except BootImageError Path :=
  match Path.parent descriptor_path with
  | none => Except.error BootImageError.KernelRootNotFound
  | some root =>
    Except.ok (Path.join (Path.join (Path.join root ("target")) target_triple) ("release"))

/-- `target_dir.join(format!("{}.elf", kernel_name))` (src/main.rs line
92), the specification's `derive_binary_path`. -/
def derive_binary_path (target_dir : Path) (package_name : String) : Path :=
  Path.join target_dir (package_name ++ ".elf")

/-- The part of `build` after the compiler spawn was recorded (src/main.rs
lines 75-119): check the compile status, locate and read the kernel
manifest, derive the binary path, canonicalize it, run
`create_kernel_diskimage` with `uefi := !disable_bios` and
`bios := !disable_uefi` exactly as the source's call site does, and log
which images were produced. -/
def buildRest (opts : BuildOpts) (w : World) (files0 : Path → Bool) :
    Exec BootImageError Unit :=
  if w.compileOk = false then ⟨[], files0, Out.err BootImageError.BuildFailed⟩
  else
    match w.kernelManifest with
    | none => ⟨[], files0, Out.err BootImageError.ManifestNotFound⟩
    | some kernel_manifest =>
      match w.packageName with
      | none => ⟨[], files0, Out.err BootImageError.KernelManifest⟩
      | some kernel_name =>
        match derive_target_dir kernel_manifest opts.target with
        | Except.error e => ⟨[], files0, Out.err e⟩
        | Except.ok target_dir =>
          let binary_path := derive_binary_path target_dir kernel_name
          match w.canonOf binary_path with
          | none => ⟨[], files0, Out.err BootImageError.Io⟩
          | some canonBinary =>
            let r := create_kernel_diskimage canonBinary (!opts.disable_bios)
              (!opts.disable_uefi) opts.out { w with files := files0 }
            match r.result with
            | Out.ok diskimage =>
              let logs :=
                (match diskimage.1 with
                  | some image => [Ev.logBiosImage image]
                  | none => []) ++
                (match diskimage.2 with
                  | some image => [Ev.logUefiImage image]
                  | none => [])
              ⟨r.trace ++ logs, r.files, Out.ok ()⟩
            | Out.err e => ⟨r.trace, r.files, Out.err (BootImageError.DiskImage e)⟩
            | Out.panicked m => ⟨r.trace, r.files, Out.panicked m⟩

/-- `build` (src/main.rs lines 61-120): validate the output directory,
spawn the kernel compiler (`cargo` with the caller's build command split
on spaces), then continue with `buildRest`. -/
def build (opts : BuildOpts) (w : World) : Exec BootImageError Unit :=
  let v := validateOut opts w
  match v.2.2 with
  | Except.error e => ⟨v.1, v.2.1, Out.err e⟩
  | Except.ok _ =>
    let r := buildRest opts w v.2.1
    ⟨v.1 ++ [Ev.spawn ("cargo") none (buildCmdSplit opts.build_cmd)] ++ r.trace,
      r.files, r.result⟩

/-- Outcome of the `run` subcommand arm of `main`. -/
inductive RunOutcome
  | vm (vmTrace : List VmEvent) (vmResult : VmOutcome)
  | failed (e : BootImageError)
  | panicked (msg : String)
  deriving DecidableEq

/-- The `SubCommands::Run` arm of `main` (src/main.rs lines 43-49):
canonicalize the given binary path, call `create_kernel_diskimage` with
`uefi := false` and `bios := true`, take the first (BIOS) slot, panicking
with "Booteable image not found" when it is `None`, and hand it to
`run_vm`. -/
def runSubcommand (opts : RunOpts) (w : World) (child : ChildBehavior) :
    List Ev × RunOutcome :=
  match w.canonOf opts.binary_path with
  | none => ([], RunOutcome.failed BootImageError.Io)
  | some binary_path =>
    let r := create_kernel_diskimage binary_path false true opts.out w
    match r.result with
    | Out.err e => (r.trace, RunOutcome.failed (BootImageError.DiskImage e))
    | Out.panicked m => (r.trace, RunOutcome.panicked m)
    | Out.ok (none, _) => (r.trace, RunOutcome.panicked ("Booteable image not found"))
    | Out.ok (some diskimage, _) =>
      let v := run_vm diskimage opts.run_args opts.timeout child
      (r.trace, RunOutcome.vm v.1 v.2)

/-- Whether any recorded spawn passes the given string among its
arguments. -/
def spawnMentions (tr : List Ev) (s : String) : Bool :=
  tr.any fun e =>
    match e with
    | Ev.spawn _ _ args => args.contains s
    | _ => false

/-- Whether an event is one of the image-report log lines of `build`. -/
def isImageLog : Ev → Bool
  | Ev.logBiosImage _ => true
  | Ev.logUefiImage _ => true
  | _ => false

/-- Whether an event only renames paths that are fixed points of the
world's canonicalization (i.e. already canonical). -/
def evPathsCanonical (w : World) : Ev → Bool
  | Ev.rename src dst =>
    decide (w.canonOf src = some src) && decide (w.canonOf dst = some dst)
  | _ => true

/-- The formalization of "every path is canonicalized before it is moved":
every rename in the trace has canonical source and destination. -/
def renamedPathsCanonical (w : World) (tr : List Ev) : Bool :=
  tr.all (evPathsCanonical w)

/-! Concrete instances used by the witnesses and counterexamples. -/

/-- A concrete output directory. -/
def outP : Path := ["out"]

/-- A concrete bootloader manifest path. -/
def bmP : Path := ["bl", "Cargo.toml"]

/-- A concrete kernel manifest path. -/
def kmP : Path := ["kr", "Cargo.toml"]

/-- The release directory derived from `kmP` and target "x86". -/
def binDirP : Path := ["kr", "target", "x86", "release"]

/-- The kernel binary path derived from `kmP`, target "x86" and package
"kernel". -/
def cbP : Path := ["kr", "target", "x86", "release", "kernel.elf"]

/-- A world where every external step succeeds and the builder produces no
image artifacts. -/
def demoWorld : World where
  files := fun p => decide (p = outP)
  canonOf := fun p => some p
  renameOk := fun _ _ => true
  bootloaderManifest := some bmP
  kernelManifest := some kmP
  packageName := some ("kernel")
  compileOk := true
  builderOk := true
  createDirOk := true

/-- Build options with both firmware variants enabled. -/
def demoOpts : BuildOpts where
  out := outP
  create_out := false
  build_cmd := "build"
  target := "x86"
  disable_bios := false
  disable_uefi := false

/-- Build options with UEFI disabled (BIOS enabled). -/
def demoOptsUefiOff : BuildOpts :=
  { demoOpts with disable_uefi := true }

/-- Build options with BIOS disabled (UEFI enabled). -/
def demoOptsBiosOff : BuildOpts :=
  { demoOpts with disable_bios := true }

/-- `demoWorld`, but the BIOS candidate artifact exists and every rename
fails. -/
def demoWorldMoveFail : World :=
  { demoWorld with
    files := fun p => decide (p = outP ∨ p = biosCandidate binDirP ("kernel.elf"))
    renameOk := fun _ _ => false }

/-- `demoWorld`, but the BIOS candidate artifact exists and
canonicalization resolves every path by prefixing an absolute root, so
that no path handed to the pipeline is already canonical. -/
def demoWorldShift : World :=
  { demoWorld with
    files := fun p => decide (p = outP ∨ p = biosCandidate binDirP ("kernel.elf"))
    canonOf := fun p => some (["abs"] ++ p) }

/-- A child behaviour: exits inside the timeout window with the given
code. -/
def childExits (c : Option Int) : ChildBehavior where
  spawnOk := true
  waitTimeoutOk := true
  killOk := true
  waitOk := true
  waitTimeoutOutcome := some ⟨c⟩
  waitOutcome := ⟨some 0⟩

/-- A child behaviour: still running when the timeout elapses; the
post-kill wait reports no exit code (killed by signal). -/
def childHangs : ChildBehavior where
  spawnOk := true
  waitTimeoutOk := true
  killOk := true
  waitOk := true
  waitTimeoutOutcome := none
  waitOutcome := ⟨none⟩

/-! The claims. -/

/-- C1: for every emulator child whose final wait yields a status (and
whose spawn/wait/kill system calls succeed, the non-panicking paths of
`run_vm`), the supervisor terminates the outer process via `exit` with the
remapped code: a raw code of 5 becomes 0, any other raw code passes
through unchanged, and a missing raw code becomes 1.  `run_vm` never
returns control: its outcome is always a process termination. -/
theorem run_vm_exit_code_remapping (d : Path) (a : String) (t : Option Nat)
    (c : ChildBehavior) (e : Int)
    (hs : c.spawnOk = true) (hwt : c.waitTimeoutOk = true)
    (hk : c.killOk = true) (hw : c.waitOk = true) (he : e ≠ 5) :
    (run_vm d a t c).2 = VmOutcome.exited (remapExitCode (rawExitCode t c)) ∧
    remapExitCode (some 5) = 0 ∧
    remapExitCode (some e) = e ∧
    remapExitCode none = 1 := by
  refine ⟨?_, by simp [remapExitCode], by simp [remapExitCode, he], by simp [remapExitCode]⟩
  cases t with
  | none => simp [run_vm, rawExitCode, hs, hw]
  | some t =>
    cases hto : c.waitTimeoutOutcome with
    | none => simp [run_vm, rawExitCode, hs, hwt, hk, hw, hto]
    | some status => simp [run_vm, rawExitCode, hs, hwt, hto]

/-- Witness for C1 at a child that exits with code 5 inside a 3-second
window. -/
theorem run_vm_exit_code_remapping_witness :
    (run_vm [] ("") (some 3) (childExits (some 5))).2 =
      VmOutcome.exited (remapExitCode (rawExitCode (some 3) (childExits (some 5)))) ∧
    remapExitCode (some 5) = 0 ∧
    remapExitCode (some 3) = 3 ∧
    remapExitCode none = 1 :=
  run_vm_exit_code_remapping [] ("") (some 3) (childExits (some 5)) 3
    rfl rfl rfl rfl (by decide)

/-- C3: in bounded-wait mode, when the child has not exited at the
timeout, `run_vm` kills the child and then performs a blocking wait to
reap it — the trace is exactly spawn, bounded wait, kill, blocking wait,
so the child is reaped before the supervisor terminates — and the status
used for remapping is the post-kill status collected by that final wait. -/
theorem run_vm_timeout_kill_then_reap (d : Path) (a : String) (t : Nat)
    (c : ChildBehavior)
    (hs : c.spawnOk = true) (hwt : c.waitTimeoutOk = true)
    (hk : c.killOk = true) (hw : c.waitOk = true)
    (hto : c.waitTimeoutOutcome = none) :
    run_vm d a (some t) c =
      ([vmSpawnEvent d a, VmEvent.waitWithTimeout t, VmEvent.kill, VmEvent.waitBlocking],
        VmOutcome.exited (remapExitCode c.waitOutcome.code)) := by
  simp [run_vm, hs, hwt, hk, hw, hto]

/-- Witness for C3 at a hanging child with a 7-second timeout. -/
theorem run_vm_timeout_kill_then_reap_witness :
    run_vm [] ("") (some 7) childHangs =
      ([vmSpawnEvent [] (""), VmEvent.waitWithTimeout 7, VmEvent.kill, VmEvent.waitBlocking],
        VmOutcome.exited (remapExitCode childHangs.waitOutcome.code)) :=
  run_vm_timeout_kill_then_reap [] ("") 7 childHangs rfl rfl rfl rfl rfl

/-- C7: `derive_target_dir` and `derive_binary_path` are pure functions of
their inputs (two calls on identical inputs give identical results), they
compute exactly `descriptor.parent()/target/{triple}/release` and
`target_dir/{package}.elf`, and a descriptor with no parent fails with the
root-not-found error. -/
theorem derive_paths_formula_and_purity (d dDeg td : Path) (t nm : String)
    (root : Path)
    (h : Path.parent d = some root) (hdeg : Path.parent dDeg = none) :
    derive_target_dir d t = derive_target_dir d t ∧
    derive_binary_path td nm = derive_binary_path td nm ∧
    derive_target_dir d t =
      Except.ok (Path.join (Path.join (Path.join root ("target")) t) ("release")) ∧
    derive_target_dir dDeg t = Except.error BootImageError.KernelRootNotFound ∧
    derive_binary_path td nm = Path.join td (nm ++ ".elf") := by
  refine ⟨rfl, rfl, ?_, ?_, rfl⟩
  · simp [derive_target_dir, h]
  · simp [derive_target_dir, hdeg]

/-- Witness for C7 at the concrete kernel manifest path and the empty
(degenerate) descriptor. -/
theorem derive_paths_formula_and_purity_witness :
    derive_target_dir kmP ("x86") = derive_target_dir kmP ("x86") ∧
    derive_binary_path binDirP ("kernel") = derive_binary_path binDirP ("kernel") ∧
    derive_target_dir kmP ("x86") =
      Except.ok (Path.join (Path.join (Path.join ["kr"] ("target")) ("x86")) ("release")) ∧
    derive_target_dir [] ("x86") = Except.error BootImageError.KernelRootNotFound ∧
    derive_binary_path binDirP ("kernel") = Path.join binDirP ("kernel" ++ ".elf") :=
  derive_paths_formula_and_purity kmP [] binDirP ("x86") ("kernel") ["kr"] rfl rfl

/-- C9: `create_kernel_diskimage` never reads its third (`_bios`)
parameter: two invocations differing only in it produce identical traces
(hence identical builder command lines), identical file-map effects and
identical results. -/
theorem create_kernel_diskimage_independent_of_bios_arg
    (k : Path) (u b1 b2 : Bool) (o : Path) (w : World) :
    create_kernel_diskimage k u b1 o w = create_kernel_diskimage k u b2 o w := rfl

/-- C5: when the output directory does not exist, `build` with
auto-creation disabled fails with `OutNotExist` and an empty action trace
— in particular no external process is spawned — and with auto-creation
enabled it first creates the directory (with all missing parents, the
`create_dir_all` call) and then proceeds: the compiler spawn is the very
next action. -/
theorem build_out_dir_validation (opts : BuildOpts) (w : World)
    (h : w.files opts.out = false) :
    (opts.create_out = false →
      (build opts w).result = Out.err BootImageError.OutNotExist ∧
      (build opts w).trace = []) ∧
    (opts.create_out = true → w.createDirOk = true →
      (build opts w).trace =
        Ev.createDirAll opts.out ::
          Ev.spawn ("cargo") none (buildCmdSplit opts.build_cmd) ::
          (buildRest opts w (fun p => if p = opts.out then true else w.files p)).trace) := by
  constructor
  · intro hc
    simp [build, validateOut, h, hc]
  · intro hc hcd
    simp [build, validateOut, h, hc, hcd]

/-- A world whose filesystem is empty: in particular the output directory
does not exist. -/
def demoWorldNoOut : World :=
  { demoWorld with files := fun _ => false }

/-- Witness for C5: with auto-creation disabled and a missing output
directory, `build` fails with `OutNotExist` without spawning anything. -/
theorem build_out_dir_validation_witness :
    (build demoOpts demoWorldNoOut).result = Out.err BootImageError.OutNotExist ∧
    (build demoOpts demoWorldNoOut).trace = [] :=
  (build_out_dir_validation demoOpts demoWorldNoOut rfl).1 rfl

/-- C4: materialization after a successful builder run (the two
`moveSlot` blocks of `create_kernel_diskimage`): a candidate that does not
exist yields `None` for its slot without error; an existing candidate is
renamed to `{out}/bios.img` / `{out}/uefi.img`, after which the original
path no longer holds the file and the destination does, and the
canonicalized destination is returned; a failed rename is a `Move` error
and a failed post-move canonicalization is a `FindMoved` error. -/
theorem create_kernel_diskimage_materialization
    (kbp out bm km broot kroot binDir : Path) (nm : String)
    (uefi bios : Bool) (w : World) (cB cU : Path)
    (K : Exec CreateDiskImageError (Option Path × Option Path))
    (hK : K = create_kernel_diskimage kbp uefi bios out w)
    (hbm : w.bootloaderManifest = some bm)
    (hkm : w.kernelManifest = some km)
    (hbp : Path.parent bm = some broot)
    (hkp : Path.parent km = some kroot)
    (hkb : Path.parent kbp = some binDir)
    (hfn : Path.fileName kbp = some nm)
    (hok : w.builderOk = true) :
    (w.files (biosCandidate binDir nm) = false →
      w.files (uefiCandidate binDir nm) = false →
      K.result = Out.ok (none, none)) ∧
    (w.files (biosCandidate binDir nm) = true →
      w.renameOk (biosCandidate binDir nm) (biosDest out) = false →
      K.result = Out.err CreateDiskImageError.Move) ∧
    (w.files (biosCandidate binDir nm) = true →
      w.renameOk (biosCandidate binDir nm) (biosDest out) = true →
      w.canonOf (biosDest out) = none →
      K.result = Out.err CreateDiskImageError.FindMoved) ∧
    (w.files (biosCandidate binDir nm) = true →
      w.renameOk (biosCandidate binDir nm) (biosDest out) = true →
      w.canonOf (biosDest out) = some cB →
      w.files (uefiCandidate binDir nm) = false →
      uefiCandidate binDir nm ≠ biosDest out →
      biosCandidate binDir nm ≠ biosDest out →
      K.result = Out.ok (some cB, none) ∧
      K.files (biosCandidate binDir nm) = false ∧
      K.files (biosDest out) = true) ∧
    (w.files (biosCandidate binDir nm) = false →
      w.files (uefiCandidate binDir nm) = true →
      w.renameOk (uefiCandidate binDir nm) (uefiDest out) = false →
      K.result = Out.err CreateDiskImageError.Move) ∧
    (w.files (biosCandidate binDir nm) = false →
      w.files (uefiCandidate binDir nm) = true →
      w.renameOk (uefiCandidate binDir nm) (uefiDest out) = true →
      w.canonOf (uefiDest out) = some cU →
      uefiCandidate binDir nm ≠ uefiDest out →
      K.result = Out.ok (none, some cU) ∧
      K.files (uefiCandidate binDir nm) = false ∧
      K.files (uefiDest out) = true) := by
  subst hK
  refine ⟨?_, ?_, ?_, ?_, ?_, ?_⟩
  · intro h1 h2
    simp [create_kernel_diskimage, hbm, hkm, hbp, hkp, hkb, hfn, hok, moveSlot, h1, h2]
  · intro h1 h2
    simp [create_kernel_diskimage, hbm, hkm, hbp, hkp, hkb, hfn, hok, moveSlot, h1, h2]
  · intro h1 h2 h3
    simp [create_kernel_diskimage, hbm, hkm, hbp, hkp, hkb, hfn, hok, moveSlot, h1, h2, h3]
  · intro h1 h2 h3 h4 h5 h6
    simp [create_kernel_diskimage, hbm, hkm, hbp, hkp, hkb, hfn, hok, moveSlot,
      h1, h2, h3, h4, h5, h6]
  · intro h1 h2 h3
    simp [create_kernel_diskimage, hbm, hkm, hbp, hkp, hkb, hfn, hok, moveSlot, h1, h2, h3]
  · intro h1 h2 h3 h4 h5
    simp [create_kernel_diskimage, hbm, hkm, hbp, hkp, hkb, hfn, hok, moveSlot,
      h1, h2, h3, h4, h5]

/-- Witness for C4: in the world where the BIOS candidate exists but every
rename fails, materialization is a `Move` error. -/
theorem create_kernel_diskimage_materialization_witness :
    (create_kernel_diskimage cbP true true outP demoWorldMoveFail).result =
      Out.err CreateDiskImageError.Move :=
  (create_kernel_diskimage_materialization cbP outP bmP kmP ["bl"] ["kr"] binDirP
      ("kernel.elf") true true demoWorldMoveFail [] []
      (create_kernel_diskimage cbP true true outP demoWorldMoveFail)
      rfl rfl rfl rfl rfl rfl rfl rfl).2.1 (by decide) rfl

/-- C2 (code bug): `build` passes `!disable_bios` as the argument of the
parameter named `uefi` of `create_kernel_diskimage` (src/main.rs line 98),
so the `--firmware bios` override follows the disable-BIOS flag, not the
disable-UEFI flag: with UEFI disabled (and BIOS enabled) the builder argv
contains no `--firmware` at all, while with BIOS disabled (UEFI enabled,
where the claim requires the override to be omitted) it does contain it. -/
theorem build_firmware_flag_tracks_disable_bios :
    demoOptsUefiOff.disable_uefi = true ∧
    demoOptsUefiOff.disable_bios = false ∧
    spawnMentions (build demoOptsUefiOff demoWorld).trace ("--firmware") = false ∧
    demoOptsBiosOff.disable_bios = true ∧
    demoOptsBiosOff.disable_uefi = false ∧
    spawnMentions (build demoOptsBiosOff demoWorld).trace ("--firmware") = true := by
  decide

/-- Counterexample for C6: both firmware variants are enabled, the builder
run succeeds but produces neither artifact, and `build` still returns
success, reporting no image at all — the absence of an enabled variant is
not an error. -/
theorem build_enabled_variant_absent_cex :
    demoOpts.disable_bios = false ∧
    demoOpts.disable_uefi = false ∧
    (build demoOpts demoWorld).result = Out.ok () ∧
    List.any (build demoOpts demoWorld).trace isImageLog = false := by
  decide

/-- C6 as amended: after a successful build, the variants that were
produced are reported via the two log lines, but the absence of an enabled
variant does not make the build an error: with both variants enabled and
neither candidate artifact produced by the builder, `build` still returns
success and reports no image. -/
theorem build_missing_enabled_variants_still_ok
    (opts : BuildOpts) (w : World) (km bm broot kroot td cb cbDir : Path)
    (nm cbn : String)
    (hout : w.files opts.out = true)
    (hc : w.compileOk = true)
    (hkm : w.kernelManifest = some km)
    (hpn : w.packageName = some nm)
    (hdt : derive_target_dir km opts.target = Except.ok td)
    (hcanon : w.canonOf (derive_binary_path td nm) = some cb)
    (hbm : w.bootloaderManifest = some bm)
    (hbp : Path.parent bm = some broot)
    (hkp : Path.parent km = some kroot)
    (hcb : Path.parent cb = some cbDir)
    (hfn : Path.fileName cb = some cbn)
    (hbuild : w.builderOk = true)
    (hnb : w.files (biosCandidate cbDir cbn) = false)
    (hnu : w.files (uefiCandidate cbDir cbn) = false)
    (hdb : opts.disable_bios = false)
    (hdu : opts.disable_uefi = false) :
    (build opts w).result = Out.ok () ∧
    List.any (build opts w).trace isImageLog = false := by
  constructor <;>
    simp [build, validateOut, buildRest, hout, hc, hkm, hpn, hdt, hcanon,
      create_kernel_diskimage, hbm, hbp, hkp, hcb, hfn, hbuild, moveSlot, hnb, hnu,
      isImageLog]

/-- Witness for the amended C6 at the concrete world in which the builder
emits no artifact. -/
theorem build_missing_enabled_variants_still_ok_witness :
    (build demoOpts demoWorld).result = Out.ok () ∧
    List.any (build demoOpts demoWorld).trace isImageLog = false :=
  build_missing_enabled_variants_still_ok demoOpts demoWorld kmP bmP ["bl"] ["kr"]
    binDirP cbP binDirP ("kernel") ("kernel.elf")
    (by decide) rfl rfl rfl rfl rfl rfl rfl rfl rfl rfl rfl
    (by decide) (by decide) rfl rfl

/-- Counterexample for C8: the claim that every path handled by the
pipeline is canonicalized before being compared, moved or passed on fails:
in a world where no path is already canonical (canonicalization prefixes
an absolute root), `create_kernel_diskimage` still renames the BIOS
candidate onto the non-canonical `{out}/bios.img`, so its trace contains a
rename whose destination is not a fixed point of canonicalization. -/
theorem rename_destination_not_canonicalized_cex :
    Ev.rename (biosCandidate binDirP ("kernel.elf")) (biosDest outP) ∈
      (create_kernel_diskimage cbP true true outP demoWorldShift).trace ∧
    renamedPathsCanonical demoWorldShift
      (create_kernel_diskimage cbP true true outP demoWorldShift).trace = false := by
  decide

/-- C8 as amended: the kernel binary path is canonicalized before being
passed to the bootloader builder (the builder argv is built from the
canonicalized binary `cb`, not from the derived path), and a relocated
image's destination is canonicalized after the move, the canonical result
being what `build` reports; the output directory itself and the candidate
source paths are used without prior canonicalization. -/
theorem build_canonicalizes_binary_and_moved_outputs
    (opts : BuildOpts) (w : World) (km bm broot kroot td cb cbDir cBc : Path)
    (nm cbn : String)
    (hout : w.files opts.out = true)
    (hc : w.compileOk = true)
    (hkm : w.kernelManifest = some km)
    (hpn : w.packageName = some nm)
    (hdt : derive_target_dir km opts.target = Except.ok td)
    (hcanon : w.canonOf (derive_binary_path td nm) = some cb)
    (hbm : w.bootloaderManifest = some bm)
    (hbp : Path.parent bm = some broot)
    (hkp : Path.parent km = some kroot)
    (hcb : Path.parent cb = some cbDir)
    (hfn : Path.fileName cb = some cbn)
    (hbuild : w.builderOk = true)
    (hyes : w.files (biosCandidate cbDir cbn) = true)
    (hren : w.renameOk (biosCandidate cbDir cbn) (biosDest opts.out) = true)
    (hcanB : w.canonOf (biosDest opts.out) = some cBc)
    (hnu1 : uefiCandidate cbDir cbn ≠ biosDest opts.out)
    (hnu : w.files (uefiCandidate cbDir cbn) = false) :
    Ev.spawn ("cargo") (some broot)
        (builderArgs km cb (Path.join kroot ("target")) cbDir (!opts.disable_bios)) ∈
      (build opts w).trace ∧
    Ev.rename (biosCandidate cbDir cbn) (biosDest opts.out) ∈ (build opts w).trace ∧
    Ev.logBiosImage cBc ∈ (build opts w).trace := by
  refine ⟨?_, ?_, ?_⟩ <;>
    simp [build, validateOut, buildRest, hout, hc, hkm, hpn, hdt, hcanon,
      create_kernel_diskimage, hbm, hbp, hkp, hcb, hfn, hbuild, moveSlot,
      hyes, hren, hcanB, hnu1, hnu]

/-- `demoWorld`, but the BIOS candidate artifact exists (renames succeed
and canonicalization is the identity). -/
def demoWorldBios : World :=
  { demoWorld with
    files := fun p => decide (p = outP ∨ p = biosCandidate binDirP ("kernel.elf")) }

/-- Witness for the amended C8 at the concrete world in which the builder
emits the BIOS artifact. -/
theorem build_canonicalizes_binary_and_moved_outputs_witness :
    Ev.spawn ("cargo") (some ["bl"])
        (builderArgs kmP cbP (Path.join ["kr"] ("target")) binDirP
          (!demoOpts.disable_bios)) ∈
      (build demoOpts demoWorldBios).trace ∧
    Ev.rename (biosCandidate binDirP ("kernel.elf")) (biosDest demoOpts.out) ∈
      (build demoOpts demoWorldBios).trace ∧
    Ev.logBiosImage (biosDest demoOpts.out) ∈ (build demoOpts demoWorldBios).trace :=
  build_canonicalizes_binary_and_moved_outputs demoOpts demoWorldBios kmP bmP
    ["bl"] ["kr"] binDirP cbP binDirP (biosDest demoOpts.out) ("kernel") ("kernel.elf")
    (by decide) rfl rfl rfl rfl rfl rfl rfl rfl rfl rfl rfl
    (by decide) rfl rfl (by decide) (by decide)

/-- C10: the `run` subcommand requests BIOS firmware from the builder
(it calls `create_kernel_diskimage` with `uefi := false`, whose argv
therefore carries `--firmware bios`), always boots the BIOS slot of the
resulting pair — whatever the UEFI slot holds — and panics with
"Booteable image not found" rather than returning an error value when the
BIOS slot is `None`. -/
theorem runSubcommand_boots_bios_slot
    (opts : RunOpts) (w : World) (child : ChildBehavior)
    (bp d bm km broot kroot binDir : Path) (bpn : String) (u uN : Option Path)
    (hc : w.canonOf opts.binary_path = some bp)
    (hbm : w.bootloaderManifest = some bm) (hkm : w.kernelManifest = some km)
    (hbp : Path.parent bm = some broot) (hkp : Path.parent km = some kroot)
    (hbd : Path.parent bp = some binDir) (hfn : Path.fileName bp = some bpn) :
    ((create_kernel_diskimage bp false true opts.out w).result = Out.ok (some d, u) →
      (runSubcommand opts w child).2 =
        RunOutcome.vm (run_vm d opts.run_args opts.timeout child).1
          (run_vm d opts.run_args opts.timeout child).2) ∧
    ((create_kernel_diskimage bp false true opts.out w).result = Out.ok (none, uN) →
      (runSubcommand opts w child).2 = RunOutcome.panicked ("Booteable image not found")) ∧
    Ev.spawn ("cargo") (some broot)
        (builderArgs km bp (Path.join kroot ("target")) binDir false) ∈
      (create_kernel_diskimage bp false true opts.out w).trace ∧
    ("--firmware" : String) ∈ builderArgs km bp (Path.join kroot ("target")) binDir false ∧
    ("bios" : String) ∈ builderArgs km bp (Path.join kroot ("target")) binDir false := by
  refine ⟨?_, ?_, ?_, ?_, ?_⟩
  · intro h1
    simp [runSubcommand, hc, h1]
  · intro h2
    simp [runSubcommand, hc, h2]
  · by_cases hb : w.builderOk = false
    · simp [create_kernel_diskimage, hbm, hkm, hbp, hkp, hbd, hfn, hb]
    · cases hsb : (moveSlot (biosCandidate binDir bpn) (biosDest opts.out) w.files w).2.2 with
      | error e =>
        simp [create_kernel_diskimage, hbm, hkm, hbp, hkp, hbd, hfn, hb, hsb]
      | ok s =>
        cases hsu : (moveSlot (uefiCandidate binDir bpn) (uefiDest opts.out)
            (moveSlot (biosCandidate binDir bpn) (biosDest opts.out) w.files w).2.1 w).2.2 with
        | error e2 =>
          simp [create_kernel_diskimage, hbm, hkm, hbp, hkp, hbd, hfn, hb, hsb, hsu]
        | ok s2 =>
          simp [create_kernel_diskimage, hbm, hkm, hbp, hkp, hbd, hfn, hb, hsb, hsu]
  · simp [builderArgs]
  · simp [builderArgs]

/-- Concrete options of the `run` subcommand. -/
def demoRunOpts : RunOpts where
  binary_path := cbP
  out := outP
  run_args := ""
  timeout := none

/-- Witness for C10: with the BIOS artifact produced, the `run`
subcommand hands `{out}/bios.img` to the emulator supervisor. -/
theorem runSubcommand_boots_bios_slot_witness :
    (runSubcommand demoRunOpts demoWorldBios (childExits (some 5))).2 =
      RunOutcome.vm
        (run_vm (biosDest outP) demoRunOpts.run_args demoRunOpts.timeout
          (childExits (some 5))).1
        (run_vm (biosDest outP) demoRunOpts.run_args demoRunOpts.timeout
          (childExits (some 5))).2 :=
  (runSubcommand_boots_bios_slot demoRunOpts demoWorldBios (childExits (some 5))
      cbP (biosDest outP) bmP kmP ["bl"] ["kr"] binDirP ("kernel.elf") none none
      rfl rfl rfl rfl rfl rfl rfl).1 (by decide)

end ImageBuilder
